import Mathlib

/-
Verification development for the chat relay Lambda handler
(lambda/index.py).  The Python source is shallowly embedded:

* JSON / Python values are modelled by the inductive `Json`
  (numbers as rationals, objects as association lists with
  last-occurrence-wins lookup, matching dicts built by json.loads);
* fallible Python expressions (dict subscripts, attribute access,
  iteration) are `Except String` computations whose error string stands
  for str(error) of the raised exception; messages of built-in
  exceptions are abbreviated, while the one error message the code
  itself formats (API error: <status>) is reproduced exactly;
* the network is a parameter `http : HttpRequest → UpstreamOutcome`
  describing what urllib.request.urlopen does for the issued request,
  and the handler also returns the list of requests it issued;
* json.loads is a parameter `jsonLoads : String → Option Json`
  (the stdlib JSON grammar is not part of this repository); theorems
  quantify over it, and concrete runs instantiate it on the one body
  string they use, consistently with real JSON parsing;
* json.dumps serialization is abstracted: response bodies and request
  payloads are kept as `Json` values rather than serialized strings.
-/

namespace SimpleChat

/-- JSON values, also used for the Python values the handler manipulates. -/
inductive Json where
  | null
  | bool (b : Bool)
  | num (q : Rat)
  | str (s : String)
  | arr (elems : List Json)
  | obj (fields : List (String × Json))

/-- Dict lookup on the association list of an object.  A later duplicate
key wins, as in a Python dict built by json.loads. -/
def lookupField : List (String × Json) → String → Option Json
  | [], _ => none
  | (k0, v) :: rest, k =>
    match lookupField rest k with
    | some v2 => some v2
    | none => if k0 = k then some v else none

/-- Python `j[k]` for a string key: value for objects with the key,
KeyError for objects without it, TypeError otherwise. -/
def pyGetItem (j : Json) (k : String) : Except String Json :=
  match j with
  | .obj fields =>
    match lookupField fields k with
    | some v => .ok v
    | none => .error ("KeyError: " ++ k)
  | .arr _ => .error "TypeError: list indices must be integers"
  | .str _ => .error "TypeError: string indices must be integers"
  | _ => .error "TypeError: object is not subscriptable"

/-- Python `j.get(k, dflt)`: only dicts have a `get` attribute. -/
def pyGet (j : Json) (k : String) (dflt : Json) : Except String Json :=
  match j with
  | .obj fields => .ok ((lookupField fields k).getD dflt)
  | _ => .error "AttributeError: object has no attribute get"

/-- Does the value equal the given Python string under Python `==`?
(A str compares equal only to an equal str.) -/
def jsonIsStrEq (j : Json) (s : String) : Bool :=
  match j with
  | .str t => t = s
  | _ => false

/-- Does the pattern occur as the initial segment?  Returns the remainder
after the pattern when it does. -/
def startsWithPat : List Char → List Char → Option (List Char)
  | [], rest => some rest
  | _ :: _, [] => none
  | p :: ps, c :: cs => if c = p then startsWithPat ps cs else none

/-- Substring occurrence test on character lists (Python `sub in s`). -/
def hasSub (pat : List Char) : List Char → Bool
  | [] => pat.isEmpty
  | c :: cs => (startsWithPat pat (c :: cs)).isSome || hasSub pat cs

/-- Python `k in j` for a string k: key test on dicts, membership on
lists, substring test on strings, TypeError otherwise. -/
def pyContains (j : Json) (k : String) : Except String Bool :=
  match j with
  | .obj fields => .ok (fields.any (fun kv => kv.1 == k))
  | .arr xs => .ok (xs.any (fun x => jsonIsStrEq x k))
  | .str s => .ok (hasSub k.data s.data)
  | _ => .error "TypeError: argument is not iterable"

/-- Python whitespace characters stripped by str.rstrip(). -/
def isPyWs (c : Char) : Bool :=
  c = ' ' || c = '\t' || c = '\n' || c = '\r' || c = '\x0b' || c = '\x0c'

/-- Python s.rstrip(): drop trailing whitespace. -/
def rstripWs (s : String) : String :=
  ⟨(s.data.reverse.dropWhile isPyWs).reverse⟩

/-- Python s.rstrip(chars) for a single character set. -/
def rstripChar (s : String) (p : Char → Bool) : String :=
  ⟨(s.data.reverse.dropWhile p).reverse⟩

/-- Python "sep".join(lines). -/
def joinWith (sep : String) : List String → String
  | [] => ""
  | [x] => x
  | x :: y :: xs => x ++ sep ++ joinWith sep (y :: xs)

/-- Sequenced fallible map, mirroring a Python list comprehension:
stops at the first raised exception. -/
def mapExc {α β : Type} (f : α → Except String β) : List α → Except String (List β)
  | [] => .ok []
  | x :: xs =>
    match f x with
    | .error e => .error e
    | .ok y =>
      match mapExc f xs with
      | .error e => .error e
      | .ok ys => .ok (y :: ys)

/-- Python "".join(texts): concatenates, TypeError on a non-str item. -/
def joinPy : List Json → Except String String
  | [] => .ok ""
  | .str s :: rest =>
    match joinPy rest with
    | .error e => .error e
    | .ok r => .ok (s ++ r)
  | _ :: _ => .error "TypeError: sequence item: expected str instance"

/-! ## Constants of the module (index.py lines 21-26) -/

/-- index.py line 22: the base URL with trailing slashes stripped. -/
def API_URL : String :=
  rstripChar "https://a814-35-196-164-95.ngrok-free.app/" (fun c => c = '/')

/-- index.py lines 23-26. -/
def SYSTEM_PROMPT : String :=
  "以下は会話の履歴です。あくまでコンテキストの参照用です。\n" ++
  "これらを出力に含めず、必ず「アシスタント: 」以降の応答のみを返してください。\n"

/-! ## extract_region_from_arn (index.py lines 10-15) -/

/-- The literal part of the regex arn:aws:lambda:([^:]+): . -/
def arnPat : List Char := "arn:aws:lambda:".data

/-- The character class [^:] of the regex. -/
def notColon (c : Char) : Bool := c ≠ ':'

/-- Attempt to match the regex at the current position: the literal
pattern, then a maximal nonempty run of non-colon characters that must
be followed by a colon; returns the captured group. -/
def regionAt (cs : List Char) : Option (List Char) :=
  match startsWithPat arnPat cs with
  | none => none
  | some rest =>
    match rest.dropWhile notColon with
    | ':' :: _ =>
      match rest.takeWhile notColon with
      | [] => none
      | hd :: tl => some (hd :: tl)
    | _ => none

/-- re.search: try the match at each position, leftmost first. -/
def findRegion : List Char → Option (List Char)
  | [] => none
  | c :: cs =>
    match regionAt (c :: cs) with
    | some r => some r
    | none => findRegion cs

/-- index.py lines 10-15: capture the region from the ARN, defaulting
to us-east-1 when the pattern does not occur. -/
def extract_region_from_arn (arn : String) : String :=
  match findRegion arn.data with
  | some r => ⟨r⟩
  | none => "us-east-1"

/-! ## build_prompt (index.py lines 43-56) -/

/-- index.py lines 50-51: iterate msg.get("content", []) and join all
text fields.  Iterating a non-empty str yields 1-char strs on which
.get raises AttributeError; iterating a dict yields its keys, likewise
strs; non-iterables raise TypeError. -/
def contentTexts : Json → Except String String
  | .arr items =>
    match mapExc (fun c => pyGet c "text" (Json.str "")) items with
    | .error e => .error e
    | .ok ts => joinPy ts
  | .str s =>
    if s.data.isEmpty then .ok ""
    else .error "AttributeError: str object has no attribute get"
  | .obj fields =>
    if fields.isEmpty then .ok ""
    else .error "AttributeError: str object has no attribute get"
  | _ => .error "TypeError: object is not iterable"

/-- index.py lines 46-52: one line of the prompt for one message. -/
def turnLine (msg : Json) : Except String String :=
  match pyGet msg "role" Json.null with
  | .error e => .error e
  | .ok roleJ =>
    let role := if jsonIsStrEq roleJ "user" then "ユーザ" else "アシスタント"
    match pyGet msg "content" (Json.arr []) with
    | .error e => .error e
    | .ok contentJ =>
      match contentTexts contentJ with
      | .error e => .error e
      | .ok s => .ok (role ++ ": " ++ s)

/-- index.py lines 43-56: the stripped system preamble, one line per
message, the assistant continuation marker, joined by newlines. -/
def build_prompt (messages : List Json) : Except String String :=
  match mapExc turnLine messages with
  | .error e => .error e
  | .ok lines =>
    .ok (joinWith "\n" (rstripWs SYSTEM_PROMPT :: (lines ++ ["アシスタント: "])))

/-! ## invoke_model (index.py lines 28-41) -/

/-- The outbound HTTP request built by invoke_model (payload kept as a
JSON value; the code serializes it with json.dumps). -/
structure HttpRequest where
  url : String
  data : Json
  headers : List (String × String)
  method : String

/-- What urlopen yielded: a response with a status and an optional
parsed JSON body (none when json.load would fail). -/
structure HttpResponse where
  status : Nat
  body : Option Json

/-- Outcome of the outbound call: a response, or a raised network error. -/
inductive UpstreamOutcome where
  | response (r : HttpResponse)
  | failure (msg : String)

/-- index.py lines 30-35: the request invoke_model issues. -/
def mkRequest (payload : Json) : HttpRequest :=
  { url := API_URL ++ "/generate"
    data := payload
    headers := [("Content-Type", "application/json")]
    method := "POST" }

/-- index.py lines 36-41: network failure propagates; a non-200 status
raises Exception with the message API error: <status>; otherwise the parsed body is
returned (json.load failure propagates). -/
def invoke_result (outcome : UpstreamOutcome) : Except String Json :=
  match outcome with
  | .failure m => .error m
  | .response r =>
    if r.status ≠ 200 then .error ("API error: " ++ toString r.status)
    else
      match r.body with
      | some j => .ok j
      | none => .error "json decode error: Expecting value"

/-! ## lambda_handler (index.py lines 59-150) -/

/-- index.py lines 88-91: the user message appended to the history;
note the content is the raw parsed message value, not wrapped in a
list of text items. -/
def userMessage (m : Json) : Json :=
  Json.obj [("role", Json.str "user"), ("content", m)]

/-- index.py lines 114-117: the assistant message appended on success;
the content is the raw generated_text value. -/
def assistantMessage (g : Json) : Json :=
  Json.obj [("role", Json.str "assistant"), ("content", g)]

/-- index.py lines 97-103: the generation request payload. -/
def genPayload (prompt : String) : Json :=
  Json.obj [("prompt", Json.str prompt),
            ("max_new_tokens", Json.num 512),
            ("temperature", Json.num (7/10)),
            ("top_p", Json.num (9/10)),
            ("do_sample", Json.bool true)]

/-- index.py line 77 area: json.loads(event[body]); loads demands a
string and its parse failure raises. -/
def pyJsonLoads (jsonLoads : String → Option Json) (j : Json) : Except String Json :=
  match j with
  | .str s =>
    match jsonLoads s with
    | some v => .ok v
    | none => .error "json.decoder.JSONDecodeError: Expecting value"
  | _ => .error "TypeError: the JSON object must be str, bytes or bytearray"

/-- index.py lines 71-74: the authenticated-user lookup.  With a
requestContext that has an authorizer, event[requestContext][authorizer]
[claims] is read and .get(email) is called on it for the log line;
any of those steps can raise. -/
def readAuthClaims (event : Json) : Except String Unit :=
  match pyContains event "requestContext" with
  | .error e => .error e
  | .ok false => .ok ()
  | .ok true =>
    match pyGetItem event "requestContext" with
    | .error e => .error e
    | .ok rc =>
      match pyContains rc "authorizer" with
      | .error e => .error e
      | .ok false => .ok ()
      | .ok true =>
        match pyGetItem rc "authorizer" with
        | .error e => .error e
        | .ok az =>
          match pyGetItem az "claims" with
          | .error e => .error e
          | .ok claims =>
            match pyGet claims "email" Json.null with
            | .error e => .error e
            | .ok _ => .ok ()

/-- index.py lines 71-91: everything before the prompt build: auth-claims
lookup, body parse, message and history extraction, and the working
copy of the history with the new user message appended. -/
def parse_request (jsonLoads : String → Option Json) (event : Json) :
    Except String (List Json) :=
  match readAuthClaims event with
  | .error e => .error e
  | .ok _ =>
    match pyGetItem event "body" with
    | .error e => .error e
    | .ok bodyRaw =>
      match pyJsonLoads jsonLoads bodyRaw with
      | .error e => .error e
      | .ok body =>
        match pyGetItem body "message" with
        | .error e => .error e
        | .ok message =>
          match pyGet body "conversationHistory" (Json.arr []) with
          | .error e => .error e
          | .ok history =>
            match history with
            | .arr xs => .ok (xs ++ [userMessage message])
            | .obj _ => .error "AttributeError: dict object has no attribute append"
            | _ => .error "AttributeError: object has no attribute copy"

/-- index.py lines 128-132: the success envelope body. -/
def successBody (msgs : List Json) (g : Json) : Json :=
  Json.obj [("success", Json.bool true),
            ("response", g),
            ("conversationHistory", Json.arr (msgs ++ [assistantMessage g]))]

/-- index.py lines 146-149: the error envelope body. -/
def errorBody (e : String) : Json :=
  Json.obj [("success", Json.bool false), ("error", Json.str e)]

/-- index.py lines 122-127 and 140-145: the header set of every response. -/
def responseHeaders : List (String × String) :=
  [("Content-Type", "application/json"),
   ("Access-Control-Allow-Origin", "*"),
   ("Access-Control-Allow-Headers", "Content-Type,X-Amz-Date,Authorization,X-Api-Key,X-Amz-Security-Token"),
   ("Access-Control-Allow-Methods", "OPTIONS,POST")]

/-- A gateway response as the handler returns it (body kept as JSON). -/
structure LambdaResponse where
  statusCode : Nat
  headers : List (String × String)
  body : Json

/-- The try-block of lambda_handler: either the success body, or the
first raised error; paired with the outbound requests issued. -/
def handler_core (jsonLoads : String → Option Json)
    (http : HttpRequest → UpstreamOutcome) (event : Json) :
    Except String Json × List HttpRequest :=
  match parse_request jsonLoads event with
  | .error e => (.error e, [])
  | .ok msgs =>
    match build_prompt msgs with
    | .error e => (.error e, [])
    | .ok prompt =>
      match invoke_result (http (mkRequest (genPayload prompt))) with
      | .error e => (.error e, [mkRequest (genPayload prompt)])
      | .ok result =>
        match pyGetItem result "generated_text" with
        | .error e => (.error e, [mkRequest (genPayload prompt)])
        | .ok g => (.ok (successBody msgs g), [mkRequest (genPayload prompt)])

/-- index.py lines 59-150: the full handler.  The try/except wrapper
turns the success body into a 200 response and any raised error into
the 500 error envelope; the region extraction feeds only the lazily
initialized (and otherwise unused) client handle. -/
def lambda_handler (jsonLoads : String → Option Json)
    (http : HttpRequest → UpstreamOutcome)
    (invokedFunctionArn : String) (event : Json) :
    LambdaResponse × List HttpRequest :=
  let _region := extract_region_from_arn invokedFunctionArn
  match handler_core jsonLoads http event with
  | (.ok b, tr) => (⟨200, responseHeaders, b⟩, tr)
  | (.error e, tr) => (⟨500, responseHeaders, errorBody e⟩, tr)

/-! ## The data model of the spec: structured Messages

Messages as section 3 of the design document describes them: a role and
a content sequence of text items.  `Message.toJson` injects them into
the dynamic values the handler manipulates. -/

/-- One content item of a structured Message. -/
structure ContentItem where
  text : String

/-- A structured Message of the conversation history. -/
structure Message where
  role : String
  content : List ContentItem

/-- The role labeling scheme of build_prompt. -/
def roleLabel (r : String) : String :=
  if r == "user" then "ユーザ" else "アシスタント"

/-- Concatenation of all text fields with no separator. -/
def concatTexts : List ContentItem → String
  | [] => ""
  | i :: rest => i.text ++ concatTexts rest

/-- The turn line build_prompt emits for a structured Message. -/
def Message.line (m : Message) : String :=
  roleLabel m.role ++ ": " ++ concatTexts m.content

/-- The JSON value of a structured Message. -/
def Message.toJson (m : Message) : Json :=
  Json.obj [("role", Json.str m.role),
            ("content", Json.arr (m.content.map (fun i => Json.obj [("text", Json.str i.text)])))]

/-! ## Structure lemmas shared by the claim theorems -/

theorem pyJsonLoads_ok_inv {jl : String → Option Json} {j b : Json}
    (h : pyJsonLoads jl j = .ok b) : ∃ s, j = Json.str s ∧ jl s = some b := by
  cases j <;> simp [pyJsonLoads] at h
  case str s =>
    cases hs : jl s with
    | none => rw [hs] at h; simp at h
    | some v => rw [hs] at h; simp at h; exact ⟨s, rfl, by rw [hs, h]⟩

theorem pyGet_ok_obj {j : Json} {k : String} {d v : Json}
    (h : pyGet j k d = .ok v) : ∃ fs, j = Json.obj fs := by
  cases j <;> simp [pyGet] at h
  case obj fs => exact ⟨fs, rfl⟩

theorem lookup_some_any {fs : List (String × Json)} {k : String} :
    ∀ {v : Json}, lookupField fs k = some v → fs.any (fun kv => kv.1 == k) = true := by
  induction fs with
  | nil => intro v h; simp [lookupField] at h
  | cons kv rest ih =>
    intro v h
    obtain ⟨k0, v0⟩ := kv
    unfold lookupField at h
    cases hr : lookupField rest k with
    | some v2 => simp [List.any_cons, ih hr]
    | none =>
      rw [hr] at h
      by_cases hk : k0 = k
      · simp [List.any_cons, hk]
      · rw [if_neg hk] at h; cases h

theorem mapExc_ok_mem {α β : Type} {f : α → Except String β} :
    ∀ (l : List α) (out : List β), mapExc f l = .ok out → ∀ a ∈ l, ∃ b, f a = .ok b := by
  intro l
  induction l with
  | nil => intro out _ a ha; cases ha
  | cons x xs ih =>
    intro out h a ha
    unfold mapExc at h
    cases hx : f x with
    | error e => rw [hx] at h; simp at h
    | ok y =>
      rw [hx] at h
      cases hm : mapExc f xs with
      | error e => rw [hm] at h; simp at h
      | ok ys =>
        rcases List.mem_cons.mp ha with rfl | hmem
        · exact ⟨y, hx⟩
        · exact ih ys hm a hmem

theorem contentTexts_ok_cases {m : Json} {u : String} (h : contentTexts m = .ok u) :
    m = Json.str "" ∨ m = Json.obj [] ∨
      ∃ cs, m = Json.arr cs ∧ ∀ c ∈ cs, ∃ fs, c = Json.obj fs := by
  cases m with
  | null => simp [contentTexts] at h
  | bool b => simp [contentTexts] at h
  | num q => simp [contentTexts] at h
  | str s =>
    left
    simp only [contentTexts] at h
    split at h
    · rename_i hs
      simp at hs
      cases s with
      | mk data =>
        have hd : data = [] := hs
        subst hd; rfl
    · simp at h
  | obj fs =>
    right; left
    simp only [contentTexts] at h
    split at h
    · rename_i hs
      simp at hs
      rw [hs]
    · simp at h
  | arr cs =>
    right; right
    refine ⟨cs, rfl, ?_⟩
    intro c hc
    simp only [contentTexts] at h
    split at h
    · simp at h
    · rename_i ts hm
      obtain ⟨b, hb⟩ := mapExc_ok_mem cs ts hm c hc
      exact pyGet_ok_obj hb

theorem userMessage_content (m : Json) :
    pyGet (userMessage m) "content" (Json.arr []) = .ok m := rfl

theorem build_prompt_ok_inv {msgs : List Json} {p : String}
    (h : build_prompt msgs = .ok p) :
    ∃ lines, mapExc turnLine msgs = .ok lines ∧
      p = joinWith "\n" (rstripWs SYSTEM_PROMPT :: (lines ++ ["アシスタント: "])) := by
  unfold build_prompt at h
  split at h
  · simp at h
  · rename_i lines hm
    simp only [Except.ok.injEq] at h
    exact ⟨lines, hm, h.symm⟩

theorem turnLine_ok_content {msg : Json} {u : String} (h : turnLine msg = .ok u) :
    ∃ cj t, pyGet msg "content" (Json.arr []) = .ok cj ∧ contentTexts cj = .ok t := by
  unfold turnLine at h
  split at h
  · simp at h
  · rename_i roleJ hrole
    split at h
    all_goals
      split at h
      · simp at h
      · rename_i cj hcj
        split at h
        · simp at h
        · rename_i t ht
          exact ⟨cj, t, hcj, ht⟩

theorem parse_ok_inv {jl : String → Option Json} {ev : Json} {msgs : List Json}
    (h : parse_request jl ev = .ok msgs) :
    ∃ s b m histL, pyGetItem ev "body" = .ok (Json.str s) ∧ jl s = some b ∧
      pyGetItem b "message" = .ok m ∧
      pyGet b "conversationHistory" (Json.arr []) = .ok (Json.arr histL) ∧
      msgs = histL ++ [userMessage m] := by
  unfold parse_request at h
  split at h
  · simp at h
  · split at h
    · simp at h
    · rename_i bodyRaw hbody
      split at h
      · simp at h
      · rename_i body hloads
        split at h
        · simp at h
        · rename_i m hmsg
          split at h
          · simp at h
          · rename_i hist hhist
            split at h
            · rename_i xs
              obtain ⟨s, rfl, hjl⟩ := pyJsonLoads_ok_inv hloads
              simp only [Except.ok.injEq] at h
              exact ⟨s, body, m, xs, hbody, hjl, hmsg, hhist, h.symm⟩
            · simp at h
            · simp at h

theorem core_ok_inv {jl : String → Option Json} {http : HttpRequest → UpstreamOutcome}
    {ev : Json} {b : Json} {tr : List HttpRequest}
    (h : handler_core jl http ev = (.ok b, tr)) :
    ∃ msgs prompt result g,
      parse_request jl ev = .ok msgs ∧ build_prompt msgs = .ok prompt ∧
      invoke_result (http (mkRequest (genPayload prompt))) = .ok result ∧
      pyGetItem result "generated_text" = .ok g ∧
      b = successBody msgs g ∧ tr = [mkRequest (genPayload prompt)] := by
  unfold handler_core at h
  split at h
  · simp at h
  · rename_i msgs hp
    split at h
    · simp at h
    · rename_i prompt hbp
      split at h
      · simp at h
      · rename_i result hinv
        split at h
        · simp at h
        · rename_i g hg
          simp only [Prod.mk.injEq, Except.ok.injEq] at h
          exact ⟨msgs, prompt, result, g, hp, hbp, hinv, hg, h.1.symm, h.2.symm⟩

theorem core_err_trace_inv {jl : String → Option Json} {http : HttpRequest → UpstreamOutcome}
    {ev : Json} {e : String} {tr : List HttpRequest}
    (h : handler_core jl http ev = (.error e, tr)) (hne : tr ≠ []) :
    ∃ msgs prompt, parse_request jl ev = .ok msgs ∧ build_prompt msgs = .ok prompt ∧
      tr = [mkRequest (genPayload prompt)] ∧
      (invoke_result (http (mkRequest (genPayload prompt))) = .error e ∨
       ∃ result, invoke_result (http (mkRequest (genPayload prompt))) = .ok result ∧
         pyGetItem result "generated_text" = .error e) := by
  unfold handler_core at h
  split at h
  · simp only [Prod.mk.injEq] at h; exact absurd h.2.symm hne
  · rename_i msgs hp
    split at h
    · simp only [Prod.mk.injEq] at h; exact absurd h.2.symm hne
    · rename_i prompt hbp
      split at h
      · rename_i e2 hinv
        simp only [Prod.mk.injEq, Except.error.injEq] at h
        exact ⟨msgs, prompt, hp, hbp, h.2.symm, Or.inl (by rw [hinv, h.1])⟩
      · rename_i result hinv
        split at h
        · rename_i e2 hg
          simp only [Prod.mk.injEq, Except.error.injEq] at h
          exact ⟨msgs, prompt, hp, hbp, h.2.symm,
            Or.inr ⟨result, hinv, by rw [hg, h.1]⟩⟩
        · simp at h

theorem handler_cases (jl : String → Option Json) (http : HttpRequest → UpstreamOutcome)
    (arn : String) (ev : Json) :
    (∃ b tr, handler_core jl http ev = (.ok b, tr) ∧
       lambda_handler jl http arn ev = (⟨200, responseHeaders, b⟩, tr)) ∨
    (∃ e tr, handler_core jl http ev = (.error e, tr) ∧
       lambda_handler jl http arn ev = (⟨500, responseHeaders, errorBody e⟩, tr)) := by
  cases hc : handler_core jl http ev with
  | mk r tr =>
    cases r with
    | ok b => exact Or.inl ⟨b, tr, rfl, by simp [lambda_handler, hc]⟩
    | error e => exact Or.inr ⟨e, tr, rfl, by simp [lambda_handler, hc]⟩

theorem handler_status (jl : String → Option Json) (http : HttpRequest → UpstreamOutcome)
    (arn : String) (ev : Json) :
    (lambda_handler jl http arn ev).1.statusCode = 200 ∨
    ((lambda_handler jl http arn ev).1.statusCode = 500 ∧
     ∃ e, (lambda_handler jl http arn ev).1.body = errorBody e) := by
  rcases handler_cases jl http arn ev with ⟨b, tr, _, he⟩ | ⟨e, tr, _, he⟩
  · left; rw [he]
  · right; rw [he]; exact ⟨rfl, e, rfl⟩

theorem handler_200_inv {jl : String → Option Json} {http : HttpRequest → UpstreamOutcome}
    {arn : String} {ev : Json}
    (h : (lambda_handler jl http arn ev).1.statusCode = 200) :
    ∃ msgs prompt result g,
      parse_request jl ev = .ok msgs ∧ build_prompt msgs = .ok prompt ∧
      invoke_result (http (mkRequest (genPayload prompt))) = .ok result ∧
      pyGetItem result "generated_text" = .ok g ∧
      lambda_handler jl http arn ev =
        (⟨200, responseHeaders, successBody msgs g⟩, [mkRequest (genPayload prompt)]) := by
  rcases handler_cases jl http arn ev with ⟨b, tr, hc, he⟩ | ⟨e, tr, hc, he⟩
  · obtain ⟨msgs, prompt, result, g, hp, hbp, hinv, hg, rfl, rfl⟩ := core_ok_inv hc
    exact ⟨msgs, prompt, result, g, hp, hbp, hinv, hg, he⟩
  · rw [he] at h; simp at h

/-! ## Lemmas about the region-extraction search -/

theorem startsWithPat_sound : ∀ (pat cs rest : List Char),
    startsWithPat pat cs = some rest → cs = pat ++ rest := by
  intro pat
  induction pat with
  | nil =>
    intro cs rest h
    simp [startsWithPat] at h
    rw [List.nil_append]; exact h
  | cons p ps ih =>
    intro cs rest h
    cases cs with
    | nil => simp [startsWithPat] at h
    | cons c cs2 =>
      unfold startsWithPat at h
      by_cases hc : c = p
      · rw [if_pos hc] at h
        subst hc
        rw [List.cons_append, ih cs2 rest h]
      · rw [if_neg hc] at h; cases h

theorem startsWithPat_complete : ∀ (pat rest : List Char),
    startsWithPat pat (pat ++ rest) = some rest := by
  intro pat
  induction pat with
  | nil => intro rest; rfl
  | cons p ps ih => intro rest; simp [startsWithPat, ih]

theorem notColon_true {c : Char} (h : c ≠ ':') : notColon c = true := by
  simp [notColon, h]

theorem notColon_of_true {c : Char} (h : notColon c = true) : c ≠ ':' := by
  simpa [notColon] using h

theorem run_take_drop : ∀ (r post : List Char), (∀ c ∈ r, c ≠ ':') →
    (r ++ ':' :: post).takeWhile notColon = r ∧
    (r ++ ':' :: post).dropWhile notColon = ':' :: post := by
  intro r
  induction r with
  | nil =>
    intro post _
    have h0 : notColon ':' = false := by simp [notColon]
    constructor
    · rw [List.nil_append, List.takeWhile_cons, h0]; rfl
    · rw [List.nil_append, List.dropWhile_cons, h0]; rfl
  | cons c cs ih =>
    intro post hr
    have hc : c ≠ ':' := hr c (List.mem_cons_self c cs)
    have hrest := ih post (fun x hx => hr x (List.mem_cons_of_mem c hx))
    have hpc : notColon c = true := notColon_true hc
    constructor
    · rw [List.cons_append, List.takeWhile_cons, hpc]
      simp [hrest.1]
    · rw [List.cons_append, List.dropWhile_cons, hpc]
      simp [hrest.2]

theorem regionAt_sound {cs r : List Char} (h : regionAt cs = some r) :
    ∃ post, cs = arnPat ++ (r ++ ':' :: post) ∧ r ≠ [] ∧ ∀ c ∈ r, c ≠ ':' := by
  unfold regionAt at h
  split at h
  · cases h
  · rename_i rest hsw
    split at h
    · rename_i t hdrop
      split at h
      · cases h
      · rename_i hd tl htake
        simp only [Option.some.injEq] at h
        subst h
        have hrest : rest = (hd :: tl) ++ ':' :: t := by
          rw [← htake, ← hdrop, List.takeWhile_append_dropWhile]
        refine ⟨t, ?_, List.cons_ne_nil hd tl, ?_⟩
        · rw [startsWithPat_sound arnPat cs rest hsw, hrest]
        · intro c hc
          have hmem : c ∈ rest.takeWhile notColon := by rw [htake]; exact hc
          exact notColon_of_true (List.mem_takeWhile_imp hmem)
    · cases h

theorem regionAt_complete {r post : List Char} (hr : r ≠ []) (hc : ∀ c ∈ r, c ≠ ':') :
    regionAt (arnPat ++ (r ++ ':' :: post)) = some r := by
  have ht := run_take_drop r post hc
  unfold regionAt
  rw [startsWithPat_complete]
  simp only [ht.1, ht.2]
  cases r with
  | nil => exact absurd rfl hr
  | cons hd tl => rfl

theorem findRegion_sound : ∀ (cs r : List Char), findRegion cs = some r →
    ∃ pre post, cs = pre ++ (arnPat ++ (r ++ ':' :: post)) ∧ r ≠ [] ∧ ∀ c ∈ r, c ≠ ':' := by
  intro cs
  induction cs with
  | nil => intro r h; cases h
  | cons c cs2 ih =>
    intro r h
    unfold findRegion at h
    cases hra : regionAt (c :: cs2) with
    | some r2 =>
      rw [hra] at h
      simp only [Option.some.injEq] at h
      subst h
      obtain ⟨post, hcs, hne, hcol⟩ := regionAt_sound hra
      exact ⟨[], post, by rw [List.nil_append]; exact hcs, hne, hcol⟩
    | none =>
      rw [hra] at h
      simp only [] at h
      obtain ⟨pre, post, hcs, hne, hcol⟩ := ih r h
      exact ⟨c :: pre, post, by rw [List.cons_append, ← hcs], hne, hcol⟩

theorem findRegion_of_regionAt {cs r : List Char} (hne : cs ≠ [])
    (h : regionAt cs = some r) : findRegion cs = some r := by
  cases cs with
  | nil => exact absurd rfl hne
  | cons c cs2 => unfold findRegion; rw [h]

theorem arnPat_cons : arnPat = 'a' :: "rn:aws:lambda:".data := rfl

theorem findRegion_complete : ∀ (pre r post : List Char), r ≠ [] → (∀ c ∈ r, c ≠ ':') →
    ∃ r2, findRegion (pre ++ (arnPat ++ (r ++ ':' :: post))) = some r2 := by
  intro pre
  induction pre with
  | nil =>
    intro r post hr hc
    refine ⟨r, ?_⟩
    rw [List.nil_append]
    refine findRegion_of_regionAt ?_ (regionAt_complete hr hc)
    rw [arnPat_cons, List.cons_append]
    exact List.cons_ne_nil _ _
  | cons c pre2 ih =>
    intro r post hr hc
    obtain ⟨r2, ih2⟩ := ih r post hr hc
    rw [List.cons_append]
    unfold findRegion
    cases hra : regionAt (c :: (pre2 ++ (arnPat ++ (r ++ ':' :: post)))) with
    | some r3 => exact ⟨r3, rfl⟩
    | none => exact ⟨r2, ih2⟩

/-! ## Computation lemmas for build_prompt on structured Messages -/

theorem mapExc_text_items (items : List ContentItem) :
    mapExc (fun c => pyGet c "text" (Json.str ""))
        (items.map (fun i => Json.obj [("text", Json.str i.text)])) =
      .ok (items.map (fun i => Json.str i.text)) := by
  induction items with
  | nil => rfl
  | cons i rest ih =>
    simp only [List.map_cons]
    unfold mapExc
    rw [show pyGet (Json.obj [("text", Json.str i.text)]) "text" (Json.str "") =
          .ok (Json.str i.text) from rfl]
    rw [ih]

theorem joinPy_strs (items : List ContentItem) :
    joinPy (items.map (fun i => Json.str i.text)) = .ok (concatTexts items) := by
  induction items with
  | nil => rfl
  | cons i rest ih =>
    simp only [List.map_cons]
    unfold joinPy
    rw [ih]
    rfl

theorem turnLine_toJson (m : Message) :
    turnLine (Message.toJson m) = .ok (Message.line m) := by
  unfold turnLine Message.toJson
  rw [show pyGet (Json.obj [("role", Json.str m.role),
        ("content", Json.arr (m.content.map (fun i => Json.obj [("text", Json.str i.text)])))])
        "role" Json.null = .ok (Json.str m.role) from rfl]
  rw [show pyGet (Json.obj [("role", Json.str m.role),
        ("content", Json.arr (m.content.map (fun i => Json.obj [("text", Json.str i.text)])))])
        "content" (Json.arr []) =
        .ok (Json.arr (m.content.map (fun i => Json.obj [("text", Json.str i.text)]))) from rfl]
  simp only [contentTexts, mapExc_text_items, joinPy_strs]
  rfl

theorem mapExc_turnLine (ms : List Message) :
    mapExc turnLine (ms.map Message.toJson) = .ok (ms.map Message.line) := by
  induction ms with
  | nil => rfl
  | cons m rest ih =>
    simp only [List.map_cons]
    unfold mapExc
    rw [turnLine_toJson, ih]

/-! ## Concrete invocation inputs used by evaluations and witnesses

The json.loads stubs below define the parse function exactly on the one
body string each scenario uses, agreeing with real JSON parsing there. -/

/-- Body string of the failing input of claims C1 and C2(a):
message "hello" with an empty history. -/
def body1 : String := "\x7b\"message\": \"hello\", \"conversationHistory\": []\x7d"

def jl1 : String → Option Json := fun s =>
  if s = body1 then
    some (Json.obj [("message", Json.str "hello"), ("conversationHistory", Json.arr [])])
  else none

def ev1 : Json := Json.obj [("body", Json.str body1)]

/-- Upstream stub: HTTP 200 with generated_text "X". -/
def httpOk : HttpRequest → UpstreamOutcome := fun _ =>
  .response ⟨200, some (Json.obj [("generated_text", Json.str "X")])⟩

/-- Body string with message equal to the empty JSON object. -/
def body2 : String := "\x7b\"message\": \x7b\x7d\x7d"

def jl2 : String → Option Json := fun s =>
  if s = body2 then some (Json.obj [("message", Json.obj [])]) else none

def ev2 : Json := Json.obj [("body", Json.str body2)]

/-- Body string with message "a" and no history. -/
def body3 : String := "\x7b\"message\": \"a\"\x7d"

def jl3 : String → Option Json := fun s =>
  if s = body3 then some (Json.obj [("message", Json.str "a")]) else none

def ev3 : Json := Json.obj [("body", Json.str body3)]

/-- Body string with message equal to the empty list, which survives
prompt building, so the outbound call is reached. -/
def body6 : String := "\x7b\"message\": []\x7d"

def jl6 : String → Option Json := fun s =>
  if s = body6 then some (Json.obj [("message", Json.arr [])]) else none

def ev6 : Json := Json.obj [("body", Json.str body6)]

/-! ## The claims -/

/-- Claim C1 (code-bug evaluation): at the failing input message =
"hello" with empty history, under an upstream stub that would answer
200 with generated_text "X", the handler returns the 500 error
envelope raised inside build_prompt and issues no outbound request at
all, instead of the success round-trip envelope the claim describes:
the handler appends the raw string as the content of the user turn, and
the per-character dict access of build_prompt raises. -/
theorem C1_round_trip_bug :
    lambda_handler jl1 httpOk "arn:aws:lambda:us-east-1:1:function:f" ev1 =
      (⟨500, responseHeaders, errorBody "AttributeError: str object has no attribute get"⟩,
       []) := rfl

/-- Claim C4: for any sequence of structured Messages (the N prior
turns plus the new user turn), build_prompt yields exactly the
stripped system preamble, then one role-labeled turn line per Message
in the original order (role user maps to the user label, any other
role to the assistant label; the text fields of a turn are
concatenated with no separator), then the assistant continuation
marker, all joined by single newlines. -/
theorem C4_prompt_turn_lines (ms : List Message) :
    build_prompt (ms.map Message.toJson) =
      .ok (joinWith "\n"
        (rstripWs SYSTEM_PROMPT :: (ms.map Message.line ++ ["アシスタント: "]))) := by
  unfold build_prompt
  rw [mapExc_turnLine]

/-- Claim C7: every response the handler returns, on the success and
the failure path alike, carries exactly the Content-Type header and
the three CORS headers of the source. -/
theorem C7_cors_headers (jl : String → Option Json) (http : HttpRequest → UpstreamOutcome)
    (arn : String) (ev : Json) :
    (lambda_handler jl http arn ev).1.headers =
      [("Content-Type", "application/json"),
       ("Access-Control-Allow-Origin", "*"),
       ("Access-Control-Allow-Headers",
        "Content-Type,X-Amz-Date,Authorization,X-Api-Key,X-Amz-Security-Token"),
       ("Access-Control-Allow-Methods", "OPTIONS,POST")] := by
  rcases handler_cases jl http arn ev with ⟨b, tr, _, he⟩ | ⟨e, tr, _, he⟩ <;> rw [he] <;> rfl

/-- The shape the spec ascribes to ARN strings the extractor handles:
somewhere in the string, the literal arn:aws:lambda: followed by a
nonempty colon-free region segment and a colon. -/
def RegionPattern (cs : List Char) : Prop :=
  ∃ pre r post, cs = pre ++ (arnPat ++ (r ++ ':' :: post)) ∧ r ≠ [] ∧ ∀ c ∈ r, c ≠ ':'

/-- Claim C9: whenever the ARN string contains the pattern
arn:aws:lambda:(region): with a nonempty colon-free region, the
extractor returns such a region segment of the string; for every
string in which the pattern does not occur it returns the default
us-east-1. -/
theorem C9_region_extraction (arn : String) :
    (RegionPattern arn.data →
      ∃ pre post,
        arn.data = pre ++ (arnPat ++ ((extract_region_from_arn arn).data ++ ':' :: post)) ∧
        (extract_region_from_arn arn).data ≠ [] ∧
        ∀ c ∈ (extract_region_from_arn arn).data, c ≠ ':') ∧
    (¬ RegionPattern arn.data → extract_region_from_arn arn = "us-east-1") := by
  constructor
  · intro hp
    obtain ⟨pre, r, post, hcs, hne, hcol⟩ := hp
    cases hf : findRegion arn.data with
    | none =>
      exfalso
      obtain ⟨r2, h2⟩ := findRegion_complete pre r post hne hcol
      rw [← hcs, hf] at h2
      cases h2
    | some r2 =>
      have hext : extract_region_from_arn arn = ⟨r2⟩ := by
        unfold extract_region_from_arn
        rw [hf]
      obtain ⟨pre2, post2, hcs2, hne2, hc2⟩ := findRegion_sound arn.data r2 hf
      rw [hext]
      exact ⟨pre2, post2, hcs2, hne2, hc2⟩
  · intro hnp
    cases hf : findRegion arn.data with
    | some r2 =>
      obtain ⟨pre, post, hcs, hne, hc⟩ := findRegion_sound arn.data r2 hf
      exact absurd ⟨pre, r2, post, hcs, hne, hc⟩ hnp
    | none =>
      unfold extract_region_from_arn
      rw [hf]

/-- Witness for C9: a well-formed Lambda ARN yields its region segment,
and a string without the pattern yields the default. -/
theorem C9_witness :
    (∃ pre post,
      ("arn:aws:lambda:eu-west-1:123:function:chat" : String).data =
        pre ++ (arnPat ++
          ((extract_region_from_arn "arn:aws:lambda:eu-west-1:123:function:chat").data ++
            ':' :: post)) ∧
      (extract_region_from_arn "arn:aws:lambda:eu-west-1:123:function:chat").data ≠ [] ∧
      ∀ c ∈ (extract_region_from_arn "arn:aws:lambda:eu-west-1:123:function:chat").data,
        c ≠ ':') ∧
    extract_region_from_arn "short" = "us-east-1" :=
  ⟨(C9_region_extraction "arn:aws:lambda:eu-west-1:123:function:chat").1
      ⟨[], "eu-west-1".data, "123:function:chat".data, rfl, by decide, by decide⟩,
   (C9_region_extraction "short").2
      (fun hp => by
        obtain ⟨pre, r, post, heq, _, _⟩ := hp
        have hl := congrArg List.length heq
        rw [show ("short" : String).data.length = 5 from rfl] at hl
        simp only [List.length_append, List.length_cons,
          show arnPat.length = 15 from rfl] at hl
        omega)⟩

/-- Claim C10: an event whose requestContext carries an authorizer
object lacking the claims key makes the whole request fail with the
500 error envelope, although the identity is used only for a log line. -/
theorem C10_missing_claims (jl : String → Option Json) (http : HttpRequest → UpstreamOutcome)
    (arn : String) (evf rcf azf : List (String × Json))
    (hrc : lookupField evf "requestContext" = some (Json.obj rcf))
    (haz : lookupField rcf "authorizer" = some (Json.obj azf))
    (hcl : lookupField azf "claims" = none) :
    (lambda_handler jl http arn (Json.obj evf)).1.statusCode = 500 ∧
    (lambda_handler jl http arn (Json.obj evf)).1.body = errorBody "KeyError: claims" := by
  have h1 : pyContains (Json.obj evf) "requestContext" = .ok true := by
    simp [pyContains, lookup_some_any hrc]
  have h2 : pyGetItem (Json.obj evf) "requestContext" = .ok (Json.obj rcf) := by
    simp [pyGetItem, hrc]
  have h3 : pyContains (Json.obj rcf) "authorizer" = .ok true := by
    simp [pyContains, lookup_some_any haz]
  have h4 : pyGetItem (Json.obj rcf) "authorizer" = .ok (Json.obj azf) := by
    simp [pyGetItem, haz]
  have h5 : pyGetItem (Json.obj azf) "claims" = .error "KeyError: claims" := by
    simp [pyGetItem, hcl]
  have hra : readAuthClaims (Json.obj evf) = .error "KeyError: claims" := by
    simp only [readAuthClaims, h1, h2, h3, h4, h5]
  have hpr : parse_request jl (Json.obj evf) = .error "KeyError: claims" := by
    unfold parse_request
    rw [hra]
  have hcore : handler_core jl http (Json.obj evf) = (.error "KeyError: claims", []) := by
    unfold handler_core
    rw [hpr]
  constructor <;> simp [lambda_handler, hcore]

/-- Witness for C10: a concrete event with an authorizer and no claims
fails with the 500 error envelope. -/
theorem C10_witness :
    (lambda_handler (fun _ => none) (fun _ => .failure "net") "a"
        (Json.obj [("requestContext",
          Json.obj [("authorizer", Json.obj [])])])).1.statusCode = 500 ∧
    (lambda_handler (fun _ => none) (fun _ => .failure "net") "a"
        (Json.obj [("requestContext",
          Json.obj [("authorizer", Json.obj [])])])).1.body =
      errorBody "KeyError: claims" :=
  C10_missing_claims (fun _ => none) (fun _ => .failure "net") "a"
    [("requestContext", Json.obj [("authorizer", Json.obj [])])]
    [("authorizer", Json.obj [])] [] rfl rfl rfl

/-- The malformed-request conditions of claim C5: the event has no
body entry, or the body string is not valid JSON, or the parsed body
lacks the message key. -/
def badBody (jl : String → Option Json) (ev : Json) : Prop :=
  (∃ e, pyGetItem ev "body" = .error e) ∨
  (∃ s, pyGetItem ev "body" = .ok (Json.str s) ∧ jl s = none) ∨
  (∃ s b e, pyGetItem ev "body" = .ok (Json.str s) ∧ jl s = some b ∧
    pyGetItem b "message" = .error e)

/-- Claim C5: for every event whose body is absent, not valid JSON, or
missing the message key, the handler returns statusCode 500 with the
error envelope success false and some error string; and for every
input event whatsoever the handler returns a response (200 or 500)
rather than letting an exception escape. -/
theorem C5_malformed_request (jl : String → Option Json) (http : HttpRequest → UpstreamOutcome)
    (arn : String) (ev : Json) :
    (badBody jl ev →
      (lambda_handler jl http arn ev).1.statusCode = 500 ∧
      ∃ e, (lambda_handler jl http arn ev).1.body = errorBody e) ∧
    ((lambda_handler jl http arn ev).1.statusCode = 200 ∨
     (lambda_handler jl http arn ev).1.statusCode = 500) := by
  constructor
  · intro hbad
    rcases handler_status jl http arn ev with h200 | ⟨h500, he⟩
    · exfalso
      obtain ⟨msgs, prompt, result, g, hp, _, _, _, _⟩ := handler_200_inv h200
      obtain ⟨s, b, m, histL, hb, hjl, hm, _, _⟩ := parse_ok_inv hp
      rcases hbad with ⟨e, he1⟩ | ⟨s2, hb2, hjl2⟩ | ⟨s2, b2, e2, hb2, hjl2, hm2⟩
      · rw [hb] at he1; cases he1
      · rw [hb] at hb2
        simp only [Except.ok.injEq, Json.str.injEq] at hb2
        subst hb2
        rw [hjl] at hjl2
        cases hjl2
      · rw [hb] at hb2
        simp only [Except.ok.injEq, Json.str.injEq] at hb2
        subst hb2
        rw [hjl] at hjl2
        simp only [Option.some.injEq] at hjl2
        subst hjl2
        rw [hm] at hm2
        cases hm2
    · exact ⟨h500, he⟩
  · rcases handler_status jl http arn ev with h200 | ⟨h500, _⟩
    · exact Or.inl h200
    · exact Or.inr h500

/-- Witness for C5: an event without a body yields the 500 error
envelope. -/
theorem C5_witness :
    (lambda_handler (fun _ => none) (fun _ => .failure "net") "a"
        (Json.obj [])).1.statusCode = 500 ∧
    ∃ e, (lambda_handler (fun _ => none) (fun _ => .failure "net") "a"
        (Json.obj [])).1.body = errorBody e :=
  (C5_malformed_request (fun _ => none) (fun _ => .failure "net") "a" (Json.obj [])).1
    (Or.inl ⟨"KeyError: body", rfl⟩)

/-- Claim C6: when the upstream endpoint answers every request with a
non-200 status s, an invocation that does issue the outbound call
returns the 500 error envelope whose error string is exactly
"API error: s", mentioning the numeric status code. -/
theorem C6_upstream_non200 (jl : String → Option Json) (arn : String) (ev : Json)
    (s : Nat) (b : Option Json) (hs : s ≠ 200)
    (hcall : (lambda_handler jl (fun _ => .response ⟨s, b⟩) arn ev).2 ≠ []) :
    (lambda_handler jl (fun _ => .response ⟨s, b⟩) arn ev).1.statusCode = 500 ∧
    (lambda_handler jl (fun _ => .response ⟨s, b⟩) arn ev).1.body =
      errorBody ("API error: " ++ toString s) := by
  have hinv : invoke_result (UpstreamOutcome.response ⟨s, b⟩) =
      .error ("API error: " ++ toString s) := by
    simp only [invoke_result]
    rw [if_pos hs]
  rcases handler_cases jl (fun _ => .response ⟨s, b⟩) arn ev with
    ⟨bb, tr, hc, he⟩ | ⟨e, tr, hc, he⟩
  · exfalso
    obtain ⟨msgs, prompt, result, g, _, _, hok, _, _, _⟩ := core_ok_inv hc
    rw [hinv] at hok
    cases hok
  · rw [he] at hcall
    have htr : tr ≠ [] := by simpa using hcall
    obtain ⟨msgs, prompt, hp, hbp, htr2, hlast⟩ := core_err_trace_inv hc htr
    have heq : e = "API error: " ++ toString s := by
      rcases hlast with hinv2 | ⟨result, hinv2, _⟩
      · rw [hinv] at hinv2
        simp only [Except.error.injEq] at hinv2
        exact hinv2.symm
      · rw [hinv] at hinv2
        cases hinv2
    rw [he, heq]
    exact ⟨rfl, rfl⟩

/-- Witness for C6: the concrete invocation with message [] under an
upstream stub answering 503 yields the 500 envelope with
"API error: 503". -/
theorem C6_witness :
    (lambda_handler jl6 (fun _ => .response ⟨503, none⟩) "a" ev6).1.statusCode = 500 ∧
    (lambda_handler jl6 (fun _ => .response ⟨503, none⟩) "a" ev6).1.body =
      errorBody "API error: 503" := by
  have hcall : (lambda_handler jl6 (fun _ => .response ⟨503, none⟩) "a" ev6).2 ≠ [] := by
    intro h0
    exact Nat.one_ne_zero (congrArg List.length h0)
  exact C6_upstream_non200 jl6 "a" ev6 503 none (by decide) hcall

/-- Claim C8: every outbound request the handler issues is an HTTP
POST to the configured base URL concatenated with /generate, carries
exactly the Content-Type: application/json header, and its body is the
GenerationRequest holding the prompt built from the parsed messages
together with exactly the fixed values 512, 0.7, 0.9 and true. -/
theorem C8_outbound_request (jl : String → Option Json)
    (http : HttpRequest → UpstreamOutcome) (arn : String) (ev : Json)
    (req : HttpRequest) (hmem : req ∈ (lambda_handler jl http arn ev).2) :
    req.method = "POST" ∧
    req.url = API_URL ++ "/generate" ∧
    req.headers = [("Content-Type", "application/json")] ∧
    ∃ msgs prompt, parse_request jl ev = .ok msgs ∧ build_prompt msgs = .ok prompt ∧
      req.data = Json.obj [("prompt", Json.str prompt),
                           ("max_new_tokens", Json.num 512),
                           ("temperature", Json.num (7/10)),
                           ("top_p", Json.num (9/10)),
                           ("do_sample", Json.bool true)] := by
  rcases handler_cases jl http arn ev with ⟨bb, tr, hc, he⟩ | ⟨e, tr, hc, he⟩
  · have h2 : (lambda_handler jl http arn ev).2 = tr := by rw [he]
    rw [h2] at hmem
    obtain ⟨msgs, prompt, result, g, hp, hbp, _, _, _, htr⟩ := core_ok_inv hc
    rw [htr] at hmem
    have hreq : req = mkRequest (genPayload prompt) := List.mem_singleton.mp hmem
    subst hreq
    exact ⟨rfl, rfl, rfl, msgs, prompt, hp, hbp, rfl⟩
  · have h2 : (lambda_handler jl http arn ev).2 = tr := by rw [he]
    rw [h2] at hmem
    by_cases htr : tr = []
    · rw [htr] at hmem
      cases hmem
    · obtain ⟨msgs, prompt, hp, hbp, htr2, _⟩ := core_err_trace_inv hc htr
      rw [htr2] at hmem
      have hreq : req = mkRequest (genPayload prompt) := List.mem_singleton.mp hmem
      subst hreq
      exact ⟨rfl, rfl, rfl, msgs, prompt, hp, hbp, rfl⟩

/-- The request the concrete message-[] invocation issues. -/
def req8 : HttpRequest :=
  mkRequest (genPayload (joinWith "\n"
    [rstripWs SYSTEM_PROMPT, "ユーザ: ", "アシスタント: "]))

/-- Witness for C8: the concrete request issued by the message-[]
invocation has exactly the claimed method, URL, header and payload. -/
theorem C8_witness :
    req8 ∈ (lambda_handler jl6 httpOk "a" ev6).2 ∧
    (req8.method = "POST" ∧
     req8.url = API_URL ++ "/generate" ∧
     req8.headers = [("Content-Type", "application/json")] ∧
     ∃ msgs prompt, parse_request jl6 ev6 = .ok msgs ∧ build_prompt msgs = .ok prompt ∧
       req8.data = Json.obj [("prompt", Json.str prompt),
                             ("max_new_tokens", Json.num 512),
                             ("temperature", Json.num (7/10)),
                             ("top_p", Json.num (9/10)),
                             ("do_sample", Json.bool true)]) := by
  have hmem : req8 ∈ (lambda_handler jl6 httpOk "a" ev6).2 := by
    rw [show (lambda_handler jl6 httpOk "a" ev6).2 = [req8] from rfl]
    exact List.mem_singleton.mpr rfl
  exact ⟨hmem, C8_outbound_request jl6 httpOk "a" ev6 req8 hmem⟩

/-- Claim C2 (amended): every invocation whose parsed body carries a
non-empty string message returns the 500 error envelope and never the
success envelope — the handler appends the raw string as the user
content of the user turn and the per-character dict access of build_prompt raises;
and the success envelope is reachable only when the message value is
the empty string, the empty JSON object, or a sequence of dict-like
content items.  (The empty-object case is the amendment: iterating an
empty dict also yields nothing and succeeds.) -/
theorem C2_string_message (jl : String → Option Json) (http : HttpRequest → UpstreamOutcome)
    (arn : String) (ev : Json) :
    ((∃ s b t, pyGetItem ev "body" = .ok (Json.str s) ∧ jl s = some b ∧
        pyGetItem b "message" = .ok (Json.str t) ∧ t ≠ "") →
      (lambda_handler jl http arn ev).1.statusCode = 500 ∧
      ∃ e, (lambda_handler jl http arn ev).1.body = errorBody e) ∧
    ((lambda_handler jl http arn ev).1.statusCode = 200 →
      ∃ s b m, pyGetItem ev "body" = .ok (Json.str s) ∧ jl s = some b ∧
        pyGetItem b "message" = .ok m ∧
        (m = Json.str "" ∨ m = Json.obj [] ∨
         ∃ cs, m = Json.arr cs ∧ ∀ c ∈ cs, ∃ fs, c = Json.obj fs)) := by
  have key : (lambda_handler jl http arn ev).1.statusCode = 200 →
      ∃ s b m, pyGetItem ev "body" = .ok (Json.str s) ∧ jl s = some b ∧
        pyGetItem b "message" = .ok m ∧ ∃ u, contentTexts m = .ok u := by
    intro h200
    obtain ⟨msgs, prompt, result, g, hp, hbp, _, _, _⟩ := handler_200_inv h200
    obtain ⟨s, b, m, histL, hb, hjl, hm, _, hmsgs⟩ := parse_ok_inv hp
    obtain ⟨lines, hlines, _⟩ := build_prompt_ok_inv hbp
    have hmem : userMessage m ∈ msgs := by
      rw [hmsgs]
      exact List.mem_append_right _ (List.mem_singleton.mpr rfl)
    obtain ⟨u0, hu0⟩ := mapExc_ok_mem msgs lines hlines _ hmem
    obtain ⟨cj, t, hcj, ht⟩ := turnLine_ok_content hu0
    rw [userMessage_content] at hcj
    simp only [Except.ok.injEq] at hcj
    subst hcj
    exact ⟨s, b, m, hb, hjl, hm, t, ht⟩
  constructor
  · rintro ⟨s, b, t, hb, hjl, hm, ht⟩
    rcases handler_status jl http arn ev with h200 | ⟨h500, he⟩
    · exfalso
      obtain ⟨s2, b2, m2, hb2, hjl2, hm2, u, hu⟩ := key h200
      rw [hb] at hb2
      simp only [Except.ok.injEq, Json.str.injEq] at hb2
      subst hb2
      rw [hjl] at hjl2
      simp only [Option.some.injEq] at hjl2
      subst hjl2
      rw [hm] at hm2
      simp only [Except.ok.injEq] at hm2
      subst hm2
      rcases contentTexts_ok_cases hu with h1 | h1 | ⟨cs, h1, _⟩
      · simp only [Json.str.injEq] at h1
        exact ht h1
      · cases h1
      · cases h1
    · exact ⟨h500, he⟩
  · intro h200
    obtain ⟨s, b, m, hb, hjl, hm, u, hu⟩ := key h200
    exact ⟨s, b, m, hb, hjl, hm, contentTexts_ok_cases hu⟩

/-- Counterexample to claim C2 as stated: with the message equal to
the empty JSON object — neither the empty string nor a sequence of
content items — the handler still reaches the success envelope,
because iterating an empty dict yields no keys. -/
theorem C2_counterexample :
    (lambda_handler jl2 httpOk "a" ev2).1.statusCode = 200 ∧
    pyGetItem (Json.obj [("message", Json.obj [])]) "message" = .ok (Json.obj []) ∧
    (∀ t, Json.obj ([] : List (String × Json)) ≠ Json.str t) ∧
    (∀ cs, Json.obj ([] : List (String × Json)) ≠ Json.arr cs) := by
  refine ⟨rfl, rfl, ?_, ?_⟩ <;> intro x h <;> cases h

/-- Witness for C2: the message "hello" invocation returns the 500
error envelope, and the message-empty-object invocation that returns
200 indeed has a message of one of the listed shapes. -/
theorem C2_witness :
    ((lambda_handler jl1 httpOk "a" ev1).1.statusCode = 500 ∧
     ∃ e, (lambda_handler jl1 httpOk "a" ev1).1.body = errorBody e) ∧
    ∃ s b m, pyGetItem ev2 "body" = .ok (Json.str s) ∧ jl2 s = some b ∧
      pyGetItem b "message" = .ok m ∧
      (m = Json.str "" ∨ m = Json.obj [] ∨
       ∃ cs, m = Json.arr cs ∧ ∀ c ∈ cs, ∃ fs, c = Json.obj fs) :=
  ⟨(C2_string_message jl1 httpOk "a" ev1).1
      ⟨body1, Json.obj [("message", Json.str "hello"), ("conversationHistory", Json.arr [])],
       "hello", rfl, rfl, rfl, by decide⟩,
   (C2_string_message jl2 httpOk "a" ev2).2 rfl⟩

/-- Claim C3 (code-bug evaluation): build_prompt on the intended
wrapped user Message does produce exactly the stripped preamble, one
user-labeled line holding the message text, and the assistant
continuation marker with no trailing newline; but the handler itself,
given the message string "a" and an empty history, never builds that
prompt: it appends the raw string as the content of the turn, build_prompt
raises on the first character, and the handler answers with the 500
error envelope and no outbound call. -/
theorem C3_prompt_empty_history :
    (∀ m : String, build_prompt [Message.toJson ⟨"user", [⟨m⟩]⟩] =
        .ok (joinWith "\n" [rstripWs SYSTEM_PROMPT, "ユーザ: " ++ m, "アシスタント: "])) ∧
    lambda_handler jl3 httpOk "arn:aws:lambda:us-east-1:1:function:f" ev3 =
      (⟨500, responseHeaders, errorBody "AttributeError: str object has no attribute get"⟩,
       []) := by
  constructor
  · intro m
    have hline : Message.line ⟨"user", [⟨m⟩]⟩ = "ユーザ: " ++ m := by
      show "ユーザ" ++ ": " ++ (m ++ "") = "ユーザ: " ++ m
      rw [String.append_empty]
      rfl
    have h := mapExc_turnLine [(⟨"user", [⟨m⟩]⟩ : Message)]
    simp only [List.map_cons, List.map_nil, hline] at h
    unfold build_prompt
    rw [h]
    rfl
  · rfl

end SimpleChat
